import Mathlib

/-!
# Verification of the Pyside6-UI plugin subsystem

Shallow embedding of the plugin registry (`src/plugins/registry.py`), the
plugin contract (`src/plugins/base.py`), plugin discovery
(`src/plugins/discovery.py`) and the lazy tab-loading state machine of the
main window (`src/app/ui/main_window.py`, `src/app/utils/admin.py`),
together with theorems settling the specification claims about them.

Python dicts and sets are observed through lookup and membership, so they
are embedded as functions `String → Option _` and `String → Bool`.
Fallible Python code (raising, or a widget factory that may raise) is
embedded with `Except`.
-/

namespace PySideUI

/-- Python `str.capitalize()` restricted to ASCII (platform names such as
"windows" and "linux" are ASCII): the first character is uppercased and
the remaining characters are lowercased. Used by
`BaseTabPlugin.is_supported_platform` (`src/plugins/base.py` line 54). -/
def pyCapitalize (s : String) : String :=
  match s.data with
  | [] => ""
  | c :: cs => String.mk (c.toUpper :: cs.map Char.toLower)

/-- The metadata of a plugin class, as read by the registry and the
discovery system: `tab_name`, `supported_platforms`, `requires_admin`,
`plugin_version`, `disabled_by_default` (`src/plugins/base.py` lines
18-27) and the `is_core_plugin` marker (`CoreTabPlugin.is_core_plugin`,
line 134, defaulting to false via `getattr` in
`src/plugins/discovery.py` line 260). -/
structure PluginDescriptor where
  tab_name : String
  supported_platforms : List String
  requires_admin : Bool
  plugin_version : String
  disabled_by_default : Bool
  is_core_plugin : Bool
deriving DecidableEq, Repr

/-- `BaseTabPlugin.validate_plugin` (`src/plugins/base.py` lines 103-122):
one error message per violated invariant, in source order; it is a total
function (it never raises). -/
def validate_plugin (d : PluginDescriptor) : List String :=
  (if d.tab_name = "" ∨ d.tab_name = "Unnamed Tab"
     then ["Plugin must define a valid tab_name"] else [])
  ++ (if d.supported_platforms = []
     then ["Plugin must define supported_platforms"] else [])
  ++ (if d.plugin_version = ""
     then ["Plugin must define plugin_version"] else [])

/-- `BaseTabPlugin.is_supported_platform` (`src/plugins/base.py` line 54):
membership of the capitalized platform name in `supported_platforms`
(Python `in` on a list, element equality). -/
def is_supported_platform (d : PluginDescriptor) (platform_name : String) : Bool :=
  d.supported_platforms.contains (pyCapitalize platform_name)

/-- `BaseTabPlugin.is_compatible` (`src/plugins/base.py` lines 61-69),
with the current platform (`platform.system()`) passed explicitly. -/
def is_compatible (plat : String) (d : PluginDescriptor) : Bool :=
  is_supported_platform d plat

/-- Pointwise update of a name-indexed descriptor map (Python dict
assignment or deletion, observed through lookup). -/
def setM (m : String → Option PluginDescriptor) (k : String)
    (v : Option PluginDescriptor) : String → Option PluginDescriptor :=
  fun n => if n = k then v else m n

/-- Pointwise update of a name set (Python `set.add` / `set.discard`,
observed through membership). -/
def setB (m : String → Bool) (k : String) (v : Bool) : String → Bool :=
  fun n => if n = k then v else m n

/-- The state of `PluginRegistry` (`src/plugins/registry.py` lines 13-19):
the three dicts observed through lookup and the two sets observed through
membership. -/
structure PluginRegistry where
  plugins : String → Option PluginDescriptor
  core_plugins : String → Option PluginDescriptor
  external_plugins : String → Option PluginDescriptor
  disabled_plugins : String → Bool
  seen_plugins : String → Bool

/-- The freshly constructed registry (`PluginRegistry.__init__`). -/
def initRegistry : PluginRegistry where
  plugins := fun _ => none
  core_plugins := fun _ => none
  external_plugins := fun _ => none
  disabled_plugins := fun _ => false
  seen_plugins := fun _ => false

/-- The mutation part of `PluginRegistry.register_plugin`
(`src/plugins/registry.py` lines 47-74): executed once validation has
passed, the plugin is compatible, and the call was not skipped because an
external plugin collided with an existing core plugin. -/
def registerBody (r : PluginRegistry) (d : PluginDescriptor)
    (is_core : Bool) : PluginRegistry :=
  let n := d.tab_name
  -- replace external plugin with core plugin (lines 47-52)
  let r1 := if (r.plugins n).isSome && !(r.core_plugins n).isSome && is_core
    then { r with external_plugins := setM r.external_plugins n none } else r
  -- self._plugins[plugin_name] = plugin_class (line 54)
  let r2 := { r1 with plugins := setM r1.plugins n (some d) }
  -- classification (lines 56-59)
  let r3 := if is_core
    then { r2 with core_plugins := setM r2.core_plugins n (some d) }
    else { r2 with external_plugins := setM r2.external_plugins n (some d) }
  -- default-disabled only on first sight in this session (lines 61-71)
  let r4 := if d.disabled_by_default && !r3.seen_plugins n
      && !r3.disabled_plugins n
    then { r3 with disabled_plugins := setB r3.disabled_plugins n true }
    else r3
  -- mark as seen for this session (line 74)
  { r4 with seen_plugins := setB r4.seen_plugins n true }

/-- The `ValueError` message raised for an invalid plugin
(`src/plugins/registry.py` line 34). -/
def registerErrorMsg (name : String) (errors : List String) : String :=
  let q := String.singleton (Char.ofNat 39)
  "Invalid plugin " ++ q ++ name ++ q ++ ": " ++ String.intercalate ", " errors

/-- `PluginRegistry.register_plugin` (`src/plugins/registry.py` lines
21-74). Returns `.error` where the Python code raises `ValueError`, and
`.ok` with the (possibly unchanged) new state otherwise. The current
platform is passed explicitly. -/
def register_plugin (plat : String) (r : PluginRegistry)
    (d : PluginDescriptor) (is_core : Bool) : Except String PluginRegistry :=
  let n := d.tab_name
  let errors := validate_plugin d
  if errors = [] then
    if is_compatible plat d then
      -- skip external plugin conflicting with existing core plugin (43-46)
      if (r.plugins n).isSome && (r.core_plugins n).isSome && !is_core then
        .ok r
      else
        .ok (registerBody r d is_core)
    else
      .ok r  -- skip incompatible plugins (lines 37-38)
  else
    .error (registerErrorMsg n errors)

/-- A `register_plugin` call as its callers observe it: the raised
`ValueError` is contained at the call boundary (e.g.
`PluginDiscovery.register_discovered_plugins`), leaving the registry
unchanged. -/
def registerStep (plat : String) (r : PluginRegistry)
    (d : PluginDescriptor) (is_core : Bool) : PluginRegistry :=
  match register_plugin plat r d is_core with
  | .ok r2 => r2
  | .error _ => r

/-- `PluginRegistry.clear` (`src/plugins/registry.py` lines 96-100):
wipes the three dicts; `_disabled_plugins` and `_seen_plugins` are not
touched. -/
def PluginRegistry.clear (r : PluginRegistry) : PluginRegistry :=
  { r with plugins := fun _ => none, core_plugins := fun _ => none,
           external_plugins := fun _ => none }

/-- `PluginRegistry.disable_plugin` (lines 102-104). -/
def disable_plugin (r : PluginRegistry) (name : String) : PluginRegistry :=
  { r with disabled_plugins := setB r.disabled_plugins name true }

/-- `PluginRegistry.enable_plugin` (lines 106-108). -/
def enable_plugin (r : PluginRegistry) (name : String) : PluginRegistry :=
  { r with disabled_plugins := setB r.disabled_plugins name false }

/-- `PluginRegistry.is_enabled` (lines 110-112). -/
def is_enabled (r : PluginRegistry) (name : String) : Bool :=
  !r.disabled_plugins name

/-- One registry operation, for reasoning about arbitrary operation
sequences. -/
inductive RegOp where
  | register (d : PluginDescriptor) (is_core : Bool)
  | enable (name : String)
  | disable (name : String)
  | clear

/-- Interpretation of a registry operation. -/
def applyOp (plat : String) (r : PluginRegistry) : RegOp → PluginRegistry
  | .register d c => registerStep plat r d c
  | .enable n => enable_plugin r n
  | .disable n => disable_plugin r n
  | .clear => r.clear

/-- The registry reached from a fresh registry by a sequence of
operations. -/
def applyOps (plat : String) (ops : List RegOp) : PluginRegistry :=
  ops.foldl (applyOp plat) initRegistry

/-- Structural invariant of the registry: core and external names appear
in `plugins`, the two classifications are disjoint, every stored
descriptor passed validation and the compatibility check, and every
stored name has been marked seen. -/
def GoodReg (plat : String) (r : PluginRegistry) : Prop :=
  ∀ n,
    ((r.core_plugins n).isSome = true → (r.plugins n).isSome = true)
    ∧ ((r.external_plugins n).isSome = true → (r.plugins n).isSome = true)
    ∧ ¬((r.core_plugins n).isSome = true ∧ (r.external_plugins n).isSome = true)
    ∧ (∀ d, r.plugins n = some d →
        validate_plugin d = [] ∧ is_compatible plat d = true)
    ∧ ((r.plugins n).isSome = true → r.seen_plugins n = true)

/-! ## The lazy tab-loading state machine (`src/app/ui/main_window.py`) -/

/-- `needs_admin_for_plugin` (`src/app/utils/admin.py` lines 4-6). -/
def needs_admin_for_plugin (is_windows requires_admin is_admin : Bool) : Bool :=
  is_windows && requires_admin && !is_admin

/-- A widget occupying a tab slot: the `LoadingPlaceholder`, a widget
built by the factory (identified by a number), the
`AdminRequiredPlaceholder`, or the `ErrorPlaceholder` carrying the raised
message. -/
inductive TabInstance where
  | loading
  | ready (w : Nat)
  | adminBlocked
  | errorState (msg : String)
deriving DecidableEq, Repr

instance {α β : Type} [DecidableEq α] [DecidableEq β] :
    DecidableEq (Except α β) := fun x y =>
  match x, y with
  | .ok a, .ok b =>
    if h : a = b then isTrue (by rw [h])
    else isFalse (by intro hc; cases hc; exact h rfl)
  | .error a, .error b =>
    if h : a = b then isTrue (by rw [h])
    else isFalse (by intro hc; cases hc; exact h rfl)
  | .ok _, .error _ => isFalse (by intro hc; cases hc)
  | .error _, .ok _ => isFalse (by intro hc; cases hc)

/-- The part of a plugin class that `MainWindow.on_tab_changed` reads:
its `requires_admin` attribute and its `create_widget` factory, the
latter embedded as its (fixed) outcome — a widget or a raised message. -/
structure TabPlugin where
  requires_admin : Bool
  create_widget : Except String Nat
deriving DecidableEq, Repr

/-- One entry of `MainWindow.loaded_tabs` (`src/app/ui/main_window.py`
lines 203-208): the plugin class and the cached `instance` (here `inst`;
`none` until materialization succeeds). -/
structure TabInfo where
  plugin_class : TabPlugin
  inst : Option TabInstance
deriving DecidableEq, Repr

/-- Pointwise update of the `loaded_tabs` dict. -/
def setT (m : String → Option TabInfo) (k : String) (v : Option TabInfo) :
    String → Option TabInfo :=
  fun n => if n = k then v else m n

/-- Pointwise update of the tab-widget content map. -/
def setD (m : String → Option TabInstance) (k : String)
    (v : Option TabInstance) : String → Option TabInstance :=
  fun n => if n = k then v else m n

/-- Increment the (ghost) factory-invocation counter of one tab. -/
def bump (m : String → Nat) (k : String) : String → Nat :=
  fun n => if n = k then m n + 1 else m n

/-- The part of the `MainWindow` state that `on_tab_changed` reads and
writes: `loaded_tabs`, the widget shown in each named tab slot
(`displayed`), the re-entrancy guard `is_loading_tab`, and a ghost
counter of how often each tab's widget factory has been invoked. -/
structure WindowState where
  loaded_tabs : String → Option TabInfo
  displayed : String → Option TabInstance
  is_loading_tab : Bool
  factory_calls : String → Nat

/-- `MainWindow.add_tab` (`src/app/ui/main_window.py` lines 201-210):
record the plugin with no cached instance and show a
`LoadingPlaceholder` in the slot. -/
def add_tab (w : WindowState) (tab_name : String) (p : TabPlugin) : WindowState :=
  { w with
    loaded_tabs := setT w.loaded_tabs tab_name
      (some { plugin_class := p, inst := none }),
    displayed := setD w.displayed tab_name (some .loading) }

/-- `MainWindow.on_tab_changed` (`src/app/ui/main_window.py` lines
212-241), with a selection event identified by the selected tab's name
(`tabText(index)`); an `index < 0` event or an unknown name is the `none`
lookup. The platform test `CURRENT_PLATFORM == "windows"` and
`self.is_admin` are the two Bool parameters. Mirrors the source
faithfully: in the `except` branch (lines 232-238) the `ErrorPlaceholder`
is shown but `tab_info["instance"]` is NOT assigned, and `finally`
clears the guard. -/
def on_tab_changed (is_windows is_admin : Bool) (w : WindowState)
    (tab_name : String) : WindowState :=
  if w.is_loading_tab then w
  else
    match w.loaded_tabs tab_name with
    | none => { w with is_loading_tab := false }
    | some ti =>
      match ti.inst with
      | some _ => { w with is_loading_tab := false }
      | none =>
        if needs_admin_for_plugin is_windows ti.plugin_class.requires_admin
            is_admin then
          { w with
            loaded_tabs := setT w.loaded_tabs tab_name
              (some { ti with inst := some .adminBlocked }),
            displayed := setD w.displayed tab_name (some .adminBlocked),
            is_loading_tab := false }
        else
          match ti.plugin_class.create_widget with
          | .ok v =>
            { w with
              loaded_tabs := setT w.loaded_tabs tab_name
                (some { ti with inst := some (.ready v) }),
              displayed := setD w.displayed tab_name (some (.ready v)),
              factory_calls := bump w.factory_calls tab_name,
              is_loading_tab := false }
          | .error m =>
            { w with
              displayed := setD w.displayed tab_name (some (.errorState m)),
              factory_calls := bump w.factory_calls tab_name,
              is_loading_tab := false }

/-- A tab before any selection event: `loaded_tabs` entry fresh
(`inst = none`), guard off, factory never invoked for the tab. -/
def FreshTab (t : String) (p : TabPlugin) (w : WindowState) : Prop :=
  w.is_loading_tab = false ∧ w.loaded_tabs t = some ⟨p, none⟩
    ∧ w.factory_calls t = 0

/-- A tab that has materialized with exactly one factory invocation. -/
def MatOnce (t : String) (p : TabPlugin) (w : WindowState) : Prop :=
  w.is_loading_tab = false ∧
    (∃ x, w.loaded_tabs t = some ⟨p, some x⟩) ∧ w.factory_calls t = 1

/-- An admin-blocked tab: materialized with no factory invocation. -/
def MatAdmin (t : String) (p : TabPlugin) (w : WindowState) : Prop :=
  w.is_loading_tab = false ∧ w.loaded_tabs t = some ⟨p, some .adminBlocked⟩
    ∧ w.factory_calls t = 0

/-! ## Plugin discovery (`src/plugins/discovery.py`) -/

/-- A candidate Python file in the local plugins directory: its file name
and the outcome of loading it as a module — the raised message, or the
list of top-level `BaseTabPlugin` subclasses `inspect` finds in it. A
`spec_from_file_location` failure (lines 158-161) is a load failure
too. -/
structure LocalFile where
  name : String
  loadResult : Except String (List PluginDescriptor)

/-- The reserved file names excluded from scanning
(`src/plugins/discovery.py` lines 140-145). -/
def skip_files : List String :=
  ["__init__.py", "base.py", "discovery.py", "core_plugins.py"]

/-- Whether a file is scanned at all: not underscore-prefixed and not a
reserved name (`src/plugins/discovery.py` lines 148-151). -/
def shouldScan (f : LocalFile) : Bool :=
  !(f.name.startsWith "_") && !(skip_files.contains f.name)

/-- The metadata part of `PluginDiscovery._is_valid_plugin_class`
(`src/plugins/discovery.py` lines 202-236): the class-shape checks
(being a class, a proper `BaseTabPlugin` subclass with a callable
`create_widget`) hold by construction of `PluginDescriptor`; the
remaining check is a present, non-default `tab_name` (lines 229-231). -/
def is_valid_plugin_class (d : PluginDescriptor) : Bool :=
  !(d.tab_name = "") && !(d.tab_name = "Unnamed Tab")

/-- Scanning one non-skipped file (`src/plugins/discovery.py` lines
153-175): a load failure is logged and contributes nothing; otherwise
every valid plugin class found becomes a `(name, class, "local:<file>")`
candidate. -/
def scanFile (f : LocalFile) : List (String × PluginDescriptor × String) :=
  match f.loadResult with
  | .error _ => []
  | .ok classes =>
    (classes.filter is_valid_plugin_class).map
      (fun d => (d.tab_name, d, "local:" ++ f.name))

/-- `PluginDiscovery.discover_local_plugins` (`src/plugins/discovery.py`
lines 112-182) observed through its two effects: the final `sys.path`
(first component) and the returned candidate list. The directory is
inserted at the front of `sys.path` only when absent (lines 131-133); the
`finally` block removes the first occurrence whenever present (lines
177-180). Per-file failures are contained by the inner `try` (lines
153-175), so the scan body itself never throws. -/
def discover_local_plugins (dirExists isDir : Bool) (dirStr : String)
    (files : List LocalFile) (sysPath : List String) :
    List String × List (String × PluginDescriptor × String) :=
  if !dirExists then (sysPath, [])
  else if !isDir then (sysPath, [])
  else
    let sp1 := if sysPath.contains dirStr then sysPath else dirStr :: sysPath
    let found := (files.filter shouldScan).flatMap scanFile
    let sp2 := if sp1.contains dirStr then sp1.erase dirStr else sp1
    (sp2, found)

/-- One declared entry point of the `gui_app_tabs` group: its name and
the outcome of `ep.load()`. -/
structure EntryPointRec where
  name : String
  loadResult : Except String PluginDescriptor

/-- `PluginDiscovery.discover_entry_point_plugins`
(`src/plugins/discovery.py` lines 75-110): a failing `entry_points()`
enumeration yields no candidates; a single entry point failing to load or
failing the class check is logged and skipped. -/
def discover_entry_point_plugins (eps : Except String (List EntryPointRec)) :
    List (String × PluginDescriptor × String) :=
  match eps with
  | .error _ => []
  | .ok l =>
    l.flatMap (fun ep =>
      match ep.loadResult with
      | .error _ => []
      | .ok c =>
        if is_valid_plugin_class c then [(ep.name, c, "entry_point")] else [])

/-- `PluginDiscovery.register_discovered_plugins`
(`src/plugins/discovery.py` lines 238-272): each candidate is registered
with `is_core` read from its `is_core_plugin` marker; a failing
registration is recorded as `failed: <msg>` for that candidate and the
loop continues with the registry unchanged. The per-candidate status
records are kept in loop order. -/
def register_discovered_plugins (plat : String) (r : PluginRegistry) :
    List (String × PluginDescriptor × String) →
      PluginRegistry × List (String × String)
  | [] => (r, [])
  | (nm, d, source) :: rest =>
    match register_plugin plat r d d.is_core_plugin with
    | .ok r2 =>
      let t := register_discovered_plugins plat r2 rest
      (t.fst, (nm, "success (" ++ source ++ ")") :: t.snd)
    | .error e =>
      let t := register_discovered_plugins plat r rest
      (t.fst, (nm, "failed: " ++ e) :: t.snd)

/-! ## Concrete sample data used by witnesses and counterexamples -/

/-- A valid core descriptor. -/
def dCore : PluginDescriptor :=
  { tab_name := "Tools", supported_platforms := ["Windows", "Linux"],
    requires_admin := false, plugin_version := "1.0.0",
    disabled_by_default := false, is_core_plugin := true }

/-- A valid external descriptor colliding with `dCore` by name. -/
def dExt : PluginDescriptor :=
  { tab_name := "Tools", supported_platforms := ["Windows", "Linux"],
    requires_admin := false, plugin_version := "2.0.0",
    disabled_by_default := false, is_core_plugin := false }

/-- An invalid descriptor (placeholder name). -/
def dBad : PluginDescriptor :=
  { tab_name := "Unnamed Tab", supported_platforms := ["Windows"],
    requires_admin := false, plugin_version := "1.0.0",
    disabled_by_default := false, is_core_plugin := false }

/-- A valid descriptor incompatible with Linux. -/
def dMac : PluginDescriptor :=
  { tab_name := "MacTab", supported_platforms := ["Darwin"],
    requires_admin := false, plugin_version := "1.0.0",
    disabled_by_default := false, is_core_plugin := false }

/-- A valid descriptor that is disabled by default. -/
def dQuiet : PluginDescriptor :=
  { tab_name := "Quiet", supported_platforms := ["Windows", "Linux"],
    requires_admin := false, plugin_version := "1.0.0",
    disabled_by_default := true, is_core_plugin := false }

/-- A sample operation sequence. -/
def opsDemo : List RegOp :=
  [.register dQuiet false, .enable "Quiet", .register dMac false]

/-- A plugin whose factory raises "boom". -/
def boomPlugin : TabPlugin :=
  { requires_admin := false, create_widget := .error "boom" }

/-- A plugin whose factory returns a widget. -/
def okPlugin : TabPlugin :=
  { requires_admin := false, create_widget := .ok 7 }

/-- A plugin requiring admin privileges. -/
def adminPlugin : TabPlugin :=
  { requires_admin := true, create_widget := .ok 3 }

/-- A window with no tabs and the guard off. -/
def emptyWindow : WindowState :=
  { loaded_tabs := fun _ => none, displayed := fun _ => none,
    is_loading_tab := false, factory_calls := fun _ => 0 }

/-- A window holding a failing tab "A" and a healthy tab "B". -/
def demoWindow : WindowState :=
  add_tab (add_tab emptyWindow "A" boomPlugin) "B" okPlugin

/-! ## Theorems -/

@[simp] theorem setM_self (m : String → Option PluginDescriptor) (k v) :
    setM m k v k = v := by simp [setM]

theorem setM_ne (m : String → Option PluginDescriptor) {n k : String} (v)
    (h : n ≠ k) : setM m k v n = m n := by simp [setM, h]

@[simp] theorem setB_self (m : String → Bool) (k v) : setB m k v k = v := by
  simp [setB]

theorem setB_ne (m : String → Bool) {n k : String} (v) (h : n ≠ k) :
    setB m k v n = m n := by simp [setB, h]

theorem goodReg_init (plat : String) : GoodReg plat initRegistry := by
  intro n
  simp [initRegistry]

theorem registerBody_plugins (r : PluginRegistry) (d : PluginDescriptor)
    (c : Bool) :
    (registerBody r d c).plugins = setM r.plugins d.tab_name (some d) := by
  unfold registerBody
  dsimp only
  split <;> split <;> split <;> rfl

theorem registerBody_core (r : PluginRegistry) (d : PluginDescriptor)
    (c : Bool) :
    (registerBody r d c).core_plugins =
      if c then setM r.core_plugins d.tab_name (some d)
      else r.core_plugins := by
  unfold registerBody
  dsimp only
  split <;> split <;> split <;> simp_all

theorem registerBody_external_true (r : PluginRegistry)
    (d : PluginDescriptor) :
    (registerBody r d true).external_plugins =
      if (r.plugins d.tab_name).isSome && !(r.core_plugins d.tab_name).isSome
      then setM r.external_plugins d.tab_name none
      else r.external_plugins := by
  unfold registerBody
  dsimp only
  repeat' split
  all_goals simp_all

theorem registerBody_external_false (r : PluginRegistry)
    (d : PluginDescriptor) :
    (registerBody r d false).external_plugins =
      setM r.external_plugins d.tab_name (some d) := by
  unfold registerBody
  dsimp only
  repeat' split
  all_goals simp_all

theorem registerBody_seen (r : PluginRegistry) (d : PluginDescriptor)
    (c : Bool) :
    (registerBody r d c).seen_plugins = setB r.seen_plugins d.tab_name true := by
  unfold registerBody
  dsimp only
  split <;> split <;> split <;> rfl

theorem registerBody_disabled (r : PluginRegistry) (d : PluginDescriptor)
    (c : Bool) :
    (registerBody r d c).disabled_plugins =
      if d.disabled_by_default && !r.seen_plugins d.tab_name
          && !r.disabled_plugins d.tab_name
      then setB r.disabled_plugins d.tab_name true
      else r.disabled_plugins := by
  unfold registerBody
  dsimp only
  split <;> split <;> split <;> simp_all

theorem register_plugin_of_valid {plat : String} {d : PluginDescriptor}
    (r : PluginRegistry) (c : Bool) (hv : validate_plugin d = [])
    (hc : is_compatible plat d = true) :
    register_plugin plat r d c =
      if (r.plugins d.tab_name).isSome && (r.core_plugins d.tab_name).isSome
          && !c
      then .ok r else .ok (registerBody r d c) := by
  simp [register_plugin, hv, hc]

theorem register_plugin_invalid {d : PluginDescriptor} (plat : String)
    (r : PluginRegistry) (c : Bool) (hv : validate_plugin d ≠ []) :
    register_plugin plat r d c =
      .error (registerErrorMsg d.tab_name (validate_plugin d)) := by
  simp only [register_plugin]
  split <;> simp_all

theorem register_plugin_incompatible {plat : String} {d : PluginDescriptor}
    (r : PluginRegistry) (c : Bool) (hv : validate_plugin d = [])
    (hc : is_compatible plat d = false) :
    register_plugin plat r d c = .ok r := by
  simp [register_plugin, hv, hc]

theorem registerStep_invalid {d : PluginDescriptor} (plat : String)
    (r : PluginRegistry) (c : Bool) (hv : validate_plugin d ≠ []) :
    registerStep plat r d c = r := by
  unfold registerStep
  rw [register_plugin_invalid plat r c hv]

theorem registerStep_incompatible {plat : String} {d : PluginDescriptor}
    (r : PluginRegistry) (c : Bool) (hv : validate_plugin d = [])
    (hc : is_compatible plat d = false) :
    registerStep plat r d c = r := by
  unfold registerStep
  rw [register_plugin_incompatible r c hv hc]

theorem registerStep_skip {plat : String} {d : PluginDescriptor}
    {r : PluginRegistry} {c : Bool} (hv : validate_plugin d = [])
    (hc : is_compatible plat d = true)
    (hsk : ((r.plugins d.tab_name).isSome
      && (r.core_plugins d.tab_name).isSome && !c) = true) :
    registerStep plat r d c = r := by
  unfold registerStep
  rw [register_plugin_of_valid r c hv hc, if_pos hsk]

theorem registerStep_run {plat : String} {d : PluginDescriptor}
    {r : PluginRegistry} {c : Bool} (hv : validate_plugin d = [])
    (hc : is_compatible plat d = true)
    (hsk : ((r.plugins d.tab_name).isSome
      && (r.core_plugins d.tab_name).isSome && !c) = false) :
    registerStep plat r d c = registerBody r d c := by
  unfold registerStep
  rw [register_plugin_of_valid r c hv hc, if_neg (by simp [hsk])]

theorem goodReg_registerBody {plat : String} {r : PluginRegistry}
    {d : PluginDescriptor} {c : Bool} (hg : GoodReg plat r)
    (hv : validate_plugin d = []) (hc : is_compatible plat d = true)
    (hskip : ((r.plugins d.tab_name).isSome && (r.core_plugins d.tab_name).isSome
      && !c) = false) :
    GoodReg plat (registerBody r d c) := by
  have hext : (registerBody r d c).external_plugins d.tab_name =
      if c then none else some d := by
    cases c with
    | true =>
      rw [registerBody_external_true]
      split
      · simp
      · rename_i h
        cases hpo : r.plugins d.tab_name with
        | none =>
          cases heo : r.external_plugins d.tab_name with
          | none => simp
          | some e =>
            have h2 := (hg d.tab_name).2.1 (by simp [heo])
            rw [hpo] at h2
            simp at h2
        | some p =>
          cases hco : r.core_plugins d.tab_name with
          | none => exact absurd (by simp [hpo, hco]) h
          | some q =>
            cases heo : r.external_plugins d.tab_name with
            | none => simp
            | some e =>
              exact absurd ⟨by simp [hco], by simp [heo]⟩ ((hg d.tab_name).2.2.1)
    | false =>
      rw [registerBody_external_false]
      simp
  have hcore : (registerBody r d c).core_plugins d.tab_name =
      if c then some d else none := by
    rw [registerBody_core]
    cases c with
    | true => simp
    | false =>
      simp only [Bool.false_eq_true, if_false]
      have hsk2 : ((r.plugins d.tab_name).isSome
          && (r.core_plugins d.tab_name).isSome) = false := by
        simpa using hskip
      cases hco : r.core_plugins d.tab_name with
      | none => rfl
      | some q =>
        have h1 := (hg d.tab_name).1 (by simp [hco])
        cases hpo : r.plugins d.tab_name with
        | none => rw [hpo] at h1; simp at h1
        | some p => rw [hco, hpo] at hsk2; simp at hsk2
  intro n
  by_cases hn : n = d.tab_name
  · subst hn
    refine ⟨?_, ?_, ?_, ?_, ?_⟩
    · intro _; simp [registerBody_plugins]
    · intro _; simp [registerBody_plugins]
    · rw [hcore] at *
      rw [hext] at *
      cases c <;> simp
    · intro d2 hd2
      rw [registerBody_plugins, setM_self] at hd2
      cases hd2
      exact ⟨hv, hc⟩
    · intro _
      rw [registerBody_seen, setB_self]
  · have hp : (registerBody r d c).plugins n = r.plugins n := by
      rw [registerBody_plugins, setM_ne _ _ hn]
    have hcb : (registerBody r d c).core_plugins n = r.core_plugins n := by
      rw [registerBody_core]
      cases c
      · simp
      · simp [setM_ne _ _ hn]
    have heb : (registerBody r d c).external_plugins n
        = r.external_plugins n := by
      cases c
      · rw [registerBody_external_false, setM_ne _ _ hn]
      · rw [registerBody_external_true]
        split
        · rw [setM_ne _ _ hn]
        · rfl
    have hs : (registerBody r d c).seen_plugins n = r.seen_plugins n := by
      rw [registerBody_seen, setB_ne _ _ hn]
    rw [hp, hcb, heb, hs]
    exact hg n

theorem goodReg_registerStep {plat : String} {r : PluginRegistry}
    (d : PluginDescriptor) (c : Bool) (hg : GoodReg plat r) :
    GoodReg plat (registerStep plat r d c) := by
  by_cases hv : validate_plugin d = []
  · by_cases hc : is_compatible plat d = true
    · by_cases hsk : ((r.plugins d.tab_name).isSome
          && (r.core_plugins d.tab_name).isSome && !c) = true
      · rw [registerStep_skip hv hc hsk]
        exact hg
      · have hsk2 := Bool.not_eq_true _ ▸ hsk
        rw [registerStep_run hv hc hsk2]
        exact goodReg_registerBody hg hv hc hsk2
    · rw [registerStep_incompatible r c hv (Bool.not_eq_true _ ▸ hc)]
      exact hg
  · rw [registerStep_invalid plat r c hv]
    exact hg

theorem goodReg_applyOp {plat : String} {r : PluginRegistry}
    (op : RegOp) (hg : GoodReg plat r) : GoodReg plat (applyOp plat r op) := by
  cases op with
  | register d c => exact goodReg_registerStep d c hg
  | enable n => exact hg
  | disable n => exact hg
  | clear =>
    intro m
    simp [applyOp, PluginRegistry.clear]

theorem goodReg_foldl {plat : String} {r : PluginRegistry}
    (ops : List RegOp) (hg : GoodReg plat r) :
    GoodReg plat (ops.foldl (applyOp plat) r) := by
  induction ops generalizing r with
  | nil => exact hg
  | cons op rest ih => exact ih (goodReg_applyOp op hg)

theorem goodReg_applyOps (plat : String) (ops : List RegOp) :
    GoodReg plat (applyOps plat ops) :=
  goodReg_foldl ops (goodReg_init plat)


theorem registerBody_plugins_self (r : PluginRegistry) (d : PluginDescriptor)
    (c : Bool) : (registerBody r d c).plugins d.tab_name = some d := by
  rw [registerBody_plugins]
  exact setM_self _ _ _

theorem registerBody_core_self_true (r : PluginRegistry)
    (d : PluginDescriptor) :
    (registerBody r d true).core_plugins d.tab_name = some d := by
  rw [registerBody_core]
  simp

theorem registerBody_external_core_none {plat : String} {r : PluginRegistry}
    (d : PluginDescriptor) (hg : GoodReg plat r) :
    (registerBody r d true).external_plugins d.tab_name = none := by
  rw [registerBody_external_true]
  split
  · exact setM_self _ _ _
  · rename_i h
    cases hpo : r.plugins d.tab_name with
    | none =>
      cases heo : r.external_plugins d.tab_name with
      | none => rfl
      | some e =>
        have h2 := (hg d.tab_name).2.1 (by simp [heo])
        rw [hpo] at h2
        simp at h2
    | some p =>
      cases hco : r.core_plugins d.tab_name with
      | none => exact absurd (by simp [hpo, hco]) h
      | some q =>
        cases heo : r.external_plugins d.tab_name with
        | none => rfl
        | some e =>
          exact absurd ⟨by simp [hco], by simp [heo]⟩ ((hg d.tab_name).2.2.1)

theorem registerStep_disabled_of_seen {plat : String} {r : PluginRegistry}
    {d : PluginDescriptor} (c : Bool)
    (hs : r.seen_plugins d.tab_name = true) :
    (registerStep plat r d c).disabled_plugins d.tab_name
      = r.disabled_plugins d.tab_name := by
  by_cases hv : validate_plugin d = []
  · by_cases hc : is_compatible plat d = true
    · by_cases hsk : ((r.plugins d.tab_name).isSome
          && (r.core_plugins d.tab_name).isSome && !c) = true
      · rw [registerStep_skip hv hc hsk]
      · rw [registerStep_run hv hc (Bool.not_eq_true _ ▸ hsk),
          registerBody_disabled, if_neg (by simp [hs])]
    · rw [registerStep_incompatible r c hv (Bool.not_eq_true _ ▸ hc)]
  · rw [registerStep_invalid plat r c hv]

theorem precedence_core_first {plat : String} {r : PluginRegistry}
    {dc de : PluginDescriptor} (hg : GoodReg plat r)
    (hvc : validate_plugin dc = []) (hcc : is_compatible plat dc = true)
    (hvd : validate_plugin de = []) (hcd : is_compatible plat de = true)
    (hn : de.tab_name = dc.tab_name) :
    (registerStep plat (registerStep plat r dc true) de false).plugins
        dc.tab_name = some dc
    ∧ (registerStep plat
        (registerStep plat r dc true) de false).external_plugins
        dc.tab_name = none := by
  have hsk : ((r.plugins dc.tab_name).isSome
      && (r.core_plugins dc.tab_name).isSome && !true) = false := by simp
  rw [registerStep_run hvc hcc hsk]
  have hp := registerBody_plugins_self r dc true
  have hcore := registerBody_core_self_true r dc
  have hext := registerBody_external_core_none dc hg
  have hsk2 : (((registerBody r dc true).plugins de.tab_name).isSome
      && ((registerBody r dc true).core_plugins de.tab_name).isSome
      && !false) = true := by
    rw [hn, hp, hcore]
    simp
  rw [registerStep_skip hvd hcd hsk2]
  exact ⟨hp, hext⟩

theorem precedence_external_first {plat : String} {r : PluginRegistry}
    {dc de : PluginDescriptor} (hg : GoodReg plat r)
    (hvc : validate_plugin dc = []) (hcc : is_compatible plat dc = true)
    (hvd : validate_plugin de = []) (hcd : is_compatible plat de = true)
    (_hn : de.tab_name = dc.tab_name) :
    (registerStep plat (registerStep plat r de false) dc true).plugins
        dc.tab_name = some dc
    ∧ (registerStep plat
        (registerStep plat r de false) dc true).external_plugins
        dc.tab_name = none := by
  by_cases hsk : ((r.plugins de.tab_name).isSome
      && (r.core_plugins de.tab_name).isSome && !false) = true
  · rw [registerStep_skip hvd hcd hsk]
    have hskc : ((r.plugins dc.tab_name).isSome
        && (r.core_plugins dc.tab_name).isSome && !true) = false := by simp
    rw [registerStep_run hvc hcc hskc]
    exact ⟨registerBody_plugins_self r dc true,
      registerBody_external_core_none dc hg⟩
  · have hsk2 := Bool.not_eq_true _ ▸ hsk
    rw [registerStep_run hvd hcd hsk2]
    have hg1 : GoodReg plat (registerBody r de false) :=
      goodReg_registerBody hg hvd hcd hsk2
    have hskc : (((registerBody r de false).plugins dc.tab_name).isSome
        && ((registerBody r de false).core_plugins dc.tab_name).isSome
        && !true) = false := by simp
    rw [registerStep_run hvc hcc hskc]
    exact ⟨registerBody_plugins_self _ dc true,
      registerBody_external_core_none dc hg1⟩

theorem validate_plugin_ne_nil_iff (d : PluginDescriptor) :
    validate_plugin d ≠ [] ↔ (d.tab_name = "" ∨ d.tab_name = "Unnamed Tab"
      ∨ d.supported_platforms = [] ∨ d.plugin_version = "") := by
  by_cases h1 : d.tab_name = "" ∨ d.tab_name = "Unnamed Tab" <;>
    by_cases h2 : d.supported_platforms = [] <;>
    by_cases h3 : d.plugin_version = "" <;>
    simp [validate_plugin, h1, h2, h3]

theorem validate_plugin_mem_iff (d : PluginDescriptor) (m : String) :
    m ∈ validate_plugin d ↔
      ((m = "Plugin must define a valid tab_name"
          ∧ (d.tab_name = "" ∨ d.tab_name = "Unnamed Tab"))
        ∨ (m = "Plugin must define supported_platforms"
          ∧ d.supported_platforms = [])
        ∨ (m = "Plugin must define plugin_version"
          ∧ d.plugin_version = "")) := by
  by_cases h1 : d.tab_name = "" ∨ d.tab_name = "Unnamed Tab" <;>
    by_cases h2 : d.supported_platforms = [] <;>
    by_cases h3 : d.plugin_version = "" <;>
    simp [validate_plugin, h1, h2, h3]

/-- **C1** — Registry structural invariant with core precedence: after any
sequence of register/enable/disable/clear operations, every name present
in `corePlugins` or `externalPlugins` is present in `allPlugins` and the
two subsets are disjoint; and for a name registered both as a valid,
compatible core descriptor and as a valid, compatible external
descriptor, in either order, the final `allPlugins` entry is the core
descriptor and the name is absent from `externalPlugins`. -/
theorem c1_registry_invariant_core_precedence (plat : String)
    (ops : List RegOp) :
    (∀ n, (((applyOps plat ops).core_plugins n).isSome = true
        ∨ ((applyOps plat ops).external_plugins n).isSome = true) →
      ((applyOps plat ops).plugins n).isSome = true)
    ∧ (∀ n, ¬(((applyOps plat ops).core_plugins n).isSome = true
        ∧ ((applyOps plat ops).external_plugins n).isSome = true))
    ∧ (∀ dc de : PluginDescriptor,
        validate_plugin dc = [] → is_compatible plat dc = true →
        validate_plugin de = [] → is_compatible plat de = true →
        de.tab_name = dc.tab_name →
        ((registerStep plat (registerStep plat (applyOps plat ops) dc true)
            de false).plugins dc.tab_name = some dc
          ∧ (registerStep plat
              (registerStep plat (applyOps plat ops) dc true)
              de false).external_plugins dc.tab_name = none)
        ∧ ((registerStep plat (registerStep plat (applyOps plat ops) de false)
            dc true).plugins dc.tab_name = some dc
          ∧ (registerStep plat
              (registerStep plat (applyOps plat ops) de false)
              dc true).external_plugins dc.tab_name = none)) := by
  have hg := goodReg_applyOps plat ops
  refine ⟨?_, ?_, ?_⟩
  · intro n h
    rcases h with h | h
    · exact (hg n).1 h
    · exact (hg n).2.1 h
  · intro n
    exact (hg n).2.2.1
  · intro dc de hvc hcc hvd hcd hn
    exact ⟨precedence_core_first hg hvc hcc hvd hcd hn,
      precedence_external_first hg hvc hcc hvd hcd hn⟩

/-- Witness for C1 at concrete inputs: the core/external collision on
name "Tools" resolves to the core descriptor in both orders, on top of a
sample operation sequence. -/
theorem c1_registry_invariant_core_precedence_witness :
    (registerStep "Linux" (registerStep "Linux" (applyOps "Linux" opsDemo)
        dExt false) dCore true).plugins "Tools" = some dCore
    ∧ (registerStep "Linux" (registerStep "Linux" (applyOps "Linux" opsDemo)
        dCore true) dExt false).plugins "Tools" = some dCore := by
  have h := (c1_registry_invariant_core_precedence "Linux" opsDemo).2.2
    dCore dExt (by decide) (by decide) (by decide) (by decide) rfl
  exact ⟨h.2.1, h.1.1⟩

/-- **C2** — Validation gate with atomic failure: `validate()` is
non-empty exactly for the four listed defects, carries one fixed message
per violated invariant, `register` then raises `ValueError` leaving the
registry unchanged, and every descriptor stored in `allPlugins` after any
operation sequence passed validation. -/
theorem c2_validation_gate (plat : String) (ops : List RegOp)
    (r : PluginRegistry) (d : PluginDescriptor) (c : Bool) :
    (validate_plugin d ≠ [] ↔ (d.tab_name = "" ∨ d.tab_name = "Unnamed Tab"
      ∨ d.supported_platforms = [] ∨ d.plugin_version = ""))
    ∧ (validate_plugin d ≠ [] →
        register_plugin plat r d c
          = .error (registerErrorMsg d.tab_name (validate_plugin d))
        ∧ registerStep plat r d c = r)
    ∧ (∀ m, m ∈ validate_plugin d ↔
        ((m = "Plugin must define a valid tab_name"
            ∧ (d.tab_name = "" ∨ d.tab_name = "Unnamed Tab"))
          ∨ (m = "Plugin must define supported_platforms"
            ∧ d.supported_platforms = [])
          ∨ (m = "Plugin must define plugin_version"
            ∧ d.plugin_version = "")))
    ∧ (∀ n d2, (applyOps plat ops).plugins n = some d2 →
        validate_plugin d2 = []) := by
  refine ⟨validate_plugin_ne_nil_iff d, ?_, validate_plugin_mem_iff d, ?_⟩
  · intro hv
    exact ⟨register_plugin_invalid plat r c hv,
      registerStep_invalid plat r c hv⟩
  · intro n d2 h
    exact (((goodReg_applyOps plat ops) n).2.2.2.1 d2 h).1

/-- Witness for C2 at a concrete invalid descriptor (placeholder name):
registration raises and the registry is unchanged. -/
theorem c2_validation_gate_witness :
    register_plugin "Linux" initRegistry dBad false
      = .error (registerErrorMsg "Unnamed Tab" (validate_plugin dBad))
    ∧ registerStep "Linux" initRegistry dBad false = initRegistry := by
  exact (c2_validation_gate "Linux" opsDemo initRegistry dBad false).2.1
    (by decide)

/-- **C5** — Default-disabled applies only on first sight per session:
registering a `disabled_by_default` descriptor whose name is unseen in
the reachable state adds the name to `disabledNames`; after an explicit
`enable`, re-registering the same descriptor does not re-disable it. -/
theorem c5_default_disabled_once (plat : String) (ops : List RegOp)
    (d : PluginDescriptor) (c c2 : Bool)
    (hseen : (applyOps plat ops).seen_plugins d.tab_name = false)
    (hv : validate_plugin d = []) (hc : is_compatible plat d = true)
    (hdbd : d.disabled_by_default = true) :
    (registerStep plat (applyOps plat ops) d c).disabled_plugins
        d.tab_name = true
    ∧ is_enabled (enable_plugin
        (registerStep plat (applyOps plat ops) d c) d.tab_name)
        d.tab_name = true
    ∧ is_enabled (registerStep plat (enable_plugin
        (registerStep plat (applyOps plat ops) d c) d.tab_name) d c2)
        d.tab_name = true := by
  have hg := goodReg_applyOps plat ops
  have hplug : (applyOps plat ops).plugins d.tab_name = none := by
    cases hpo : (applyOps plat ops).plugins d.tab_name with
    | none => rfl
    | some p =>
      have h5 := (hg d.tab_name).2.2.2.2 (by simp [hpo])
      rw [hseen] at h5
      cases h5
  have hsk : (((applyOps plat ops).plugins d.tab_name).isSome
      && ((applyOps plat ops).core_plugins d.tab_name).isSome && !c)
      = false := by
    rw [hplug]
    rfl
  have hrun := registerStep_run hv hc hsk
  have hdis1 : (registerStep plat (applyOps plat ops) d c).disabled_plugins
      d.tab_name = true := by
    rw [hrun, registerBody_disabled]
    cases hdis : (applyOps plat ops).disabled_plugins d.tab_name with
    | false =>
      rw [if_pos (by simp [hdbd, hseen, hdis])]
      exact setB_self _ _ _
    | true =>
      rw [if_neg (by simp [hdis])]
      exact hdis
  have hseen1 : (registerStep plat (applyOps plat ops) d c).seen_plugins
      d.tab_name = true := by
    rw [hrun, registerBody_seen]
    exact setB_self _ _ _
  refine ⟨hdis1, ?_, ?_⟩
  · simp [is_enabled, enable_plugin]
  · have hseen2 : (enable_plugin
        (registerStep plat (applyOps plat ops) d c) d.tab_name).seen_plugins
        d.tab_name = true := hseen1
    rw [is_enabled, registerStep_disabled_of_seen c2 hseen2]
    simp [enable_plugin]

/-- Witness for C5 at a concrete descriptor: `dQuiet` is disabled on
first registration, stays enabled after `enable`, and a re-registration
does not re-disable it. -/
theorem c5_default_disabled_once_witness :
    (registerStep "Linux"
      (applyOps "Linux" []) dQuiet false).disabled_plugins "Quiet" = true
    ∧ is_enabled (registerStep "Linux" (enable_plugin
        (registerStep "Linux" (applyOps "Linux" []) dQuiet false) "Quiet")
        dQuiet true) "Quiet" = true := by
  have h := c5_default_disabled_once "Linux" [] dQuiet false true
    (by decide) (by decide) (by decide) (by decide)
  exact ⟨h.1, h.2.2⟩

/-- **C6** — Platform gate: `is_compatible` holds exactly when the
capitalized current platform name is in `supported_platforms`; a valid
but incompatible descriptor makes `register` a silent no-op (`.ok` with
the unchanged state); and every descriptor stored in `allPlugins` after
any operation sequence is compatible with the session platform. -/
theorem c6_platform_gate (plat : String) (ops : List RegOp)
    (r : PluginRegistry) (d : PluginDescriptor) (c : Bool) :
    (is_compatible plat d = true ↔
      pyCapitalize plat ∈ d.supported_platforms)
    ∧ (validate_plugin d = [] → is_compatible plat d = false →
        register_plugin plat r d c = .ok r)
    ∧ (∀ n d2, (applyOps plat ops).plugins n = some d2 →
        is_compatible plat d2 = true) := by
  refine ⟨?_, ?_, ?_⟩
  · simp [is_compatible, is_supported_platform]
  · intro hv hc
    exact register_plugin_incompatible r c hv hc
  · intro n d2 h
    exact (((goodReg_applyOps plat ops) n).2.2.2.1 d2 h).2

/-- Witness for C6 at a concrete descriptor: a Darwin-only plugin is a
silent no-op on Linux. -/
theorem c6_platform_gate_witness :
    register_plugin "Linux" initRegistry dMac false = .ok initRegistry := by
  exact (c6_platform_gate "Linux" opsDemo initRegistry dMac false).2.1
    (by decide) (by decide)

/-- **C10** — `clear()` empties the three plugin maps but leaves
`disabledNames` and `seenNames` untouched, so `is_enabled` is unchanged
for every name, and a default-disabled descriptor already seen before the
clear is not re-disabled when registered again after it. -/
theorem c10_clear_keeps_user_state (plat : String) (r : PluginRegistry)
    (n : String) (d : PluginDescriptor) (c : Bool) :
    r.clear.plugins n = none ∧ r.clear.core_plugins n = none
    ∧ r.clear.external_plugins n = none
    ∧ r.clear.disabled_plugins = r.disabled_plugins
    ∧ r.clear.seen_plugins = r.seen_plugins
    ∧ is_enabled r.clear n = is_enabled r n
    ∧ (r.seen_plugins d.tab_name = true →
        r.disabled_plugins d.tab_name = false →
        d.disabled_by_default = true →
        is_enabled (registerStep plat r.clear d c) d.tab_name = true) := by
  refine ⟨rfl, rfl, rfl, rfl, rfl, rfl, ?_⟩
  intro hs hdis _
  have h := @registerStep_disabled_of_seen plat r.clear d c hs
  rw [is_enabled, h,
    show r.clear.disabled_plugins = r.disabled_plugins from rfl, hdis]
  rfl

/-- Witness for C10 at a concrete state: a seen, user-enabled
default-disabled plugin stays enabled when re-registered after a
clear. -/
theorem c10_clear_keeps_user_state_witness :
    is_enabled (registerStep "Linux"
      (applyOps "Linux" [.register dQuiet false, .enable "Quiet"]).clear
      dQuiet false) "Quiet" = true := by
  exact (c10_clear_keeps_user_state "Linux"
    (applyOps "Linux" [.register dQuiet false, .enable "Quiet"])
    "Quiet" dQuiet false).2.2.2.2.2.2 (by decide) (by decide) (by decide)

@[simp] theorem setT_self (m : String → Option TabInfo) (k v) :
    setT m k v k = v := by simp [setT]

theorem setT_ne (m : String → Option TabInfo) {n k : String} (v)
    (h : n ≠ k) : setT m k v n = m n := by simp [setT, h]

@[simp] theorem setD_self (m : String → Option TabInstance) (k v) :
    setD m k v k = v := by simp [setD]

theorem setD_ne (m : String → Option TabInstance) {n k : String} (v)
    (h : n ≠ k) : setD m k v n = m n := by simp [setD, h]

@[simp] theorem bump_self (m : String → Nat) (k) :
    bump m k k = m k + 1 := by simp [bump]

theorem bump_ne (m : String → Nat) {n k : String} (h : n ≠ k) :
    bump m k n = m n := by simp [bump, h]

theorem windowState_eta (w : WindowState) (h : w.is_loading_tab = false) :
    { w with is_loading_tab := false } = w := by
  cases w
  simp_all

theorem on_tab_changed_materialized (iw ia : Bool) (w : WindowState)
    (t : String) (ti : TabInfo) (ht : w.loaded_tabs t = some ti)
    (hx : ti.inst.isSome = true) : on_tab_changed iw ia w t = w := by
  unfold on_tab_changed
  by_cases hl : w.is_loading_tab = true
  · rw [if_pos hl]
  · rw [if_neg hl]
    obtain ⟨x, hx2⟩ := Option.isSome_iff_exists.mp hx
    simp only [ht, hx2]
    exact windowState_eta w (Bool.not_eq_true _ ▸ hl)

theorem on_tab_changed_fresh_admin (iw ia : Bool) (w : WindowState)
    (t : String) (ti : TabInfo) (hl : w.is_loading_tab = false)
    (ht : w.loaded_tabs t = some ti) (hi : ti.inst = none)
    (had : needs_admin_for_plugin iw ti.plugin_class.requires_admin ia
      = true) :
    on_tab_changed iw ia w t = { w with
      loaded_tabs := setT w.loaded_tabs t
        (some { ti with inst := some .adminBlocked }),
      displayed := setD w.displayed t (some .adminBlocked),
      is_loading_tab := false } := by
  unfold on_tab_changed
  rw [if_neg (by simp [hl])]
  simp only [ht, hi]
  rw [if_pos had]

theorem on_tab_changed_fresh_ok {v : Nat} (iw ia : Bool) (w : WindowState)
    (t : String) (ti : TabInfo) (hl : w.is_loading_tab = false)
    (ht : w.loaded_tabs t = some ti) (hi : ti.inst = none)
    (had : needs_admin_for_plugin iw ti.plugin_class.requires_admin ia
      = false)
    (hcw : ti.plugin_class.create_widget = .ok v) :
    on_tab_changed iw ia w t = { w with
      loaded_tabs := setT w.loaded_tabs t
        (some { ti with inst := some (.ready v) }),
      displayed := setD w.displayed t (some (.ready v)),
      factory_calls := bump w.factory_calls t,
      is_loading_tab := false } := by
  unfold on_tab_changed
  rw [if_neg (by simp [hl])]
  simp only [ht, hi]
  rw [if_neg (by simp [had])]
  simp only [hcw]

theorem on_tab_changed_fresh_error {m : String} (iw ia : Bool)
    (w : WindowState) (t : String) (ti : TabInfo)
    (hl : w.is_loading_tab = false) (ht : w.loaded_tabs t = some ti)
    (hi : ti.inst = none)
    (had : needs_admin_for_plugin iw ti.plugin_class.requires_admin ia
      = false)
    (hcw : ti.plugin_class.create_widget = .error m) :
    on_tab_changed iw ia w t = { w with
      displayed := setD w.displayed t (some (.errorState m)),
      factory_calls := bump w.factory_calls t,
      is_loading_tab := false } := by
  unfold on_tab_changed
  rw [if_neg (by simp [hl])]
  simp only [ht, hi]
  rw [if_neg (by simp [had])]
  simp only [hcw]

theorem on_tab_changed_unknown (iw ia : Bool) (w : WindowState) (t : String)
    (hl : w.is_loading_tab = false) (ht : w.loaded_tabs t = none) :
    on_tab_changed iw ia w t = w := by
  unfold on_tab_changed
  rw [if_neg (by simp [hl])]
  simp only [ht]
  exact windowState_eta w hl

theorem on_tab_changed_loading (iw ia : Bool) (w : WindowState) (t : String)
    (hl : w.is_loading_tab = false) :
    (on_tab_changed iw ia w t).is_loading_tab = false := by
  cases hlt : w.loaded_tabs t with
  | none => rw [on_tab_changed_unknown iw ia w t hl hlt]; exact hl
  | some ti =>
    cases hti : ti.inst with
    | some x =>
      rw [on_tab_changed_materialized iw ia w t ti hlt (by simp [hti])]
      exact hl
    | none =>
      by_cases had : needs_admin_for_plugin iw ti.plugin_class.requires_admin
          ia = true
      · rw [on_tab_changed_fresh_admin iw ia w t ti hl hlt hti had]
      · have had2 := Bool.not_eq_true _ ▸ had
        cases hcw : ti.plugin_class.create_widget with
        | ok v => rw [on_tab_changed_fresh_ok iw ia w t ti hl hlt hti had2 hcw]
        | error m =>
          rw [on_tab_changed_fresh_error iw ia w t ti hl hlt hti had2 hcw]

theorem on_tab_changed_frame (iw ia : Bool) (w : WindowState)
    {e t : String} (hne : e ≠ t) :
    (on_tab_changed iw ia w e).loaded_tabs t = w.loaded_tabs t
    ∧ (on_tab_changed iw ia w e).factory_calls t = w.factory_calls t
    ∧ (on_tab_changed iw ia w e).displayed t = w.displayed t := by
  have hne2 : t ≠ e := fun h => hne h.symm
  by_cases hl : w.is_loading_tab = true
  · unfold on_tab_changed
    rw [if_pos hl]
    exact ⟨rfl, rfl, rfl⟩
  · have hl2 := Bool.not_eq_true _ ▸ hl
    cases hlt : w.loaded_tabs e with
    | none =>
      rw [on_tab_changed_unknown iw ia w e hl2 hlt]
      exact ⟨rfl, rfl, rfl⟩
    | some ti =>
      cases hti : ti.inst with
      | some x =>
        rw [on_tab_changed_materialized iw ia w e ti hlt (by simp [hti])]
        exact ⟨rfl, rfl, rfl⟩
      | none =>
        by_cases had : needs_admin_for_plugin iw
            ti.plugin_class.requires_admin ia = true
        · rw [on_tab_changed_fresh_admin iw ia w e ti hl2 hlt hti had]
          exact ⟨setT_ne _ _ hne2, rfl, setD_ne _ _ hne2⟩
        · have had2 := Bool.not_eq_true _ ▸ had
          cases hcw : ti.plugin_class.create_widget with
          | ok v =>
            rw [on_tab_changed_fresh_ok iw ia w e ti hl2 hlt hti had2 hcw]
            exact ⟨setT_ne _ _ hne2, bump_ne _ hne2, setD_ne _ _ hne2⟩
          | error m =>
            rw [on_tab_changed_fresh_error iw ia w e ti hl2 hlt hti had2 hcw]
            exact ⟨rfl, bump_ne _ hne2, setD_ne _ _ hne2⟩

theorem freshTab_step_ne {iw ia : Bool} {t e : String} {p : TabPlugin}
    {w : WindowState} (hne : e ≠ t) (hF : FreshTab t p w) :
    FreshTab t p (on_tab_changed iw ia w e) := by
  obtain ⟨hl, ht, hc⟩ := hF
  obtain ⟨h1, h2, _⟩ := on_tab_changed_frame iw ia w hne
  exact ⟨on_tab_changed_loading iw ia w e hl, h1.trans ht, h2.trans hc⟩

theorem matOnce_step {iw ia : Bool} {t : String} {p : TabPlugin}
    {w : WindowState} (e : String) (hM : MatOnce t p w) :
    MatOnce t p (on_tab_changed iw ia w e) := by
  obtain ⟨hl, ⟨x, hx⟩, hc⟩ := hM
  by_cases he : e = t
  · subst he
    rw [on_tab_changed_materialized iw ia w e ⟨p, some x⟩ hx (by simp)]
    exact ⟨hl, ⟨x, hx⟩, hc⟩
  · obtain ⟨h1, h2, _⟩ := on_tab_changed_frame iw ia w he
    exact ⟨on_tab_changed_loading iw ia w e hl, ⟨x, h1.trans hx⟩,
      h2.trans hc⟩

theorem matAdmin_step {iw ia : Bool} {t : String} {p : TabPlugin}
    {w : WindowState} (e : String) (hM : MatAdmin t p w) :
    MatAdmin t p (on_tab_changed iw ia w e) := by
  obtain ⟨hl, hx, hc⟩ := hM
  by_cases he : e = t
  · subst he
    rw [on_tab_changed_materialized iw ia w e ⟨p, some .adminBlocked⟩ hx
      (by simp)]
    exact ⟨hl, hx, hc⟩
  · obtain ⟨h1, h2, _⟩ := on_tab_changed_frame iw ia w he
    exact ⟨on_tab_changed_loading iw ia w e hl, h1.trans hx, h2.trans hc⟩

theorem freshTab_select_ok {iw ia : Bool} {t : String} {p : TabPlugin}
    {w : WindowState} {v : Nat} (hF : FreshTab t p w)
    (had : needs_admin_for_plugin iw p.requires_admin ia = false)
    (hcw : p.create_widget = .ok v) :
    MatOnce t p (on_tab_changed iw ia w t) := by
  obtain ⟨hl, ht, hc⟩ := hF
  rw [on_tab_changed_fresh_ok iw ia w t ⟨p, none⟩ hl ht rfl had hcw]
  refine ⟨rfl, ⟨.ready v, setT_self _ _ _⟩, ?_⟩
  show bump w.factory_calls t t = 1
  rw [bump_self, hc]

theorem freshTab_select_admin {iw ia : Bool} {t : String} {p : TabPlugin}
    {w : WindowState} (hF : FreshTab t p w)
    (had : needs_admin_for_plugin iw p.requires_admin ia = true) :
    MatAdmin t p (on_tab_changed iw ia w t) := by
  obtain ⟨hl, ht, hc⟩ := hF
  rw [on_tab_changed_fresh_admin iw ia w t ⟨p, none⟩ hl ht rfl had]
  exact ⟨rfl, setT_self _ _ _, hc⟩

theorem matOnce_fold {iw ia : Bool} {t : String} {p : TabPlugin}
    (evs : List String) {w : WindowState} (hM : MatOnce t p w) :
    MatOnce t p (evs.foldl (on_tab_changed iw ia) w) := by
  induction evs generalizing w with
  | nil => exact hM
  | cons e rest ih => exact ih (matOnce_step e hM)

theorem freshOrAdmin_fold {iw ia : Bool} {t : String} {p : TabPlugin}
    (had : needs_admin_for_plugin iw p.requires_admin ia = true)
    (evs : List String) {w : WindowState}
    (h : FreshTab t p w ∨ MatAdmin t p w) :
    FreshTab t p (evs.foldl (on_tab_changed iw ia) w)
      ∨ MatAdmin t p (evs.foldl (on_tab_changed iw ia) w) := by
  induction evs generalizing w with
  | nil => exact h
  | cons e rest ih =>
    apply ih
    by_cases he : e = t
    · subst he
      rcases h with hF | hM
      · exact Or.inr (freshTab_select_admin hF had)
      · exact Or.inr (matAdmin_step e hM)
    · rcases h with hF | hM
      · exact Or.inl (freshTab_step_ne he hF)
      · exact Or.inr (matAdmin_step e hM)

theorem freshOrMat_fold {iw ia : Bool} {t : String} {p : TabPlugin} {v : Nat}
    (had : needs_admin_for_plugin iw p.requires_admin ia = false)
    (hcw : p.create_widget = .ok v) (evs : List String) {w : WindowState}
    (h : FreshTab t p w ∨ MatOnce t p w) :
    FreshTab t p (evs.foldl (on_tab_changed iw ia) w)
      ∨ MatOnce t p (evs.foldl (on_tab_changed iw ia) w) := by
  induction evs generalizing w with
  | nil => exact h
  | cons e rest ih =>
    apply ih
    by_cases he : e = t
    · subst he
      rcases h with hF | hM
      · exact Or.inr (freshTab_select_ok hF had hcw)
      · exact Or.inr (matOnce_step e hM)
    · rcases h with hF | hM
      · exact Or.inl (freshTab_step_ne he hF)
      · exact Or.inr (matOnce_step e hM)

theorem fresh_fold_mem {iw ia : Bool} {t : String} {p : TabPlugin} {v : Nat}
    (had : needs_admin_for_plugin iw p.requires_admin ia = false)
    (hcw : p.create_widget = .ok v) (evs : List String) {w : WindowState}
    (hF : FreshTab t p w) (hmem : t ∈ evs) :
    MatOnce t p (evs.foldl (on_tab_changed iw ia) w) := by
  induction evs generalizing w with
  | nil => exact absurd hmem (List.not_mem_nil t)
  | cons e rest ih =>
    by_cases he : e = t
    · subst he
      exact matOnce_fold rest (freshTab_select_ok hF had hcw)
    · have hmem2 : t ∈ rest := by
        rcases List.mem_cons.mp hmem with h | h
        · exact absurd h.symm he
        · exact h
      exact ih (freshTab_step_ne he hF) hmem2

/-- **C3 (amended)** — Lazy materialization: for a tab whose widget
factory does not raise, across any sequence of selection events the
factory runs at most once, and exactly once when the tab is selected and
not admin-gated; selecting a tab whose instance is cached (`Ready` or
`AdminBlocked` — the only states the code ever caches) is a strict no-op.
The amendment drops the claimed `Error` case: the `except` branch never
caches an instance, so an errored tab is NOT materialized and a later
selection invokes the factory again (see the counterexample). -/
theorem c3_lazy_materialization (iw ia : Bool) (t : String) (p : TabPlugin)
    (v : Nat) (w0 : WindowState) (events : List String)
    (hF : FreshTab t p w0) (hcw : p.create_widget = .ok v) :
    (events.foldl (on_tab_changed iw ia) w0).factory_calls t ≤ 1
    ∧ (t ∈ events →
        needs_admin_for_plugin iw p.requires_admin ia = false →
        (events.foldl (on_tab_changed iw ia) w0).factory_calls t = 1)
    ∧ (∀ (w : WindowState) (ti : TabInfo), w.loaded_tabs t = some ti →
        ti.inst.isSome = true → on_tab_changed iw ia w t = w) := by
  refine ⟨?_, ?_, fun w ti ht hx =>
    on_tab_changed_materialized iw ia w t ti ht hx⟩
  · by_cases had : needs_admin_for_plugin iw p.requires_admin ia = true
    · rcases freshOrAdmin_fold had events (Or.inl hF) with h | h
      · rw [h.2.2]
        exact Nat.zero_le 1
      · rw [h.2.2]
        exact Nat.zero_le 1
    · have had2 := Bool.not_eq_true _ ▸ had
      rcases freshOrMat_fold had2 hcw events (Or.inl hF) with h | h
      · rw [h.2.2]
        exact Nat.zero_le 1
      · exact Nat.le_of_eq h.2.2
  · intro hmem had
    exact (fresh_fold_mem had hcw events hF hmem).2.2

/-- Counterexample to C3 as stated: tab "A" has a factory raising
"boom"; after the first selection the tab shows the `Error` placeholder,
yet a second selection of the same tab invokes the factory again — two
invocations, not exactly one, and the reselection is not a no-op. -/
theorem c3_counterexample :
    (on_tab_changed false false
      (add_tab emptyWindow "A" boomPlugin) "A").displayed "A"
      = some (.errorState "boom")
    ∧ (on_tab_changed false false
        (on_tab_changed false false (add_tab emptyWindow "A" boomPlugin) "A")
        "A").factory_calls "A" = 2 := by
  constructor
  · rfl
  · rfl

/-- Witness for C3 (amended): tab "B" of the demo window materializes
once over two selections. -/
theorem c3_lazy_materialization_witness :
    (["B", "B"].foldl
      (on_tab_changed false false) demoWindow).factory_calls "B" = 1 := by
  exact (c3_lazy_materialization false false "B" okPlugin 7 demoWindow
    ["B", "B"] ⟨rfl, rfl, rfl⟩ rfl).2.1 (by decide) (by decide)

/-- **C4** — Admin gating: `needsAdmin` is exactly
`isWindows AND requiresAdmin AND NOT isAdmin`; on first activation with
`needsAdmin` true the tab caches the `AdminBlocked` placeholder and the
factory is not invoked, and with `needsAdmin` false the factory is
invoked (the call counter increases by one). -/
theorem c4_admin_gating (iw ia : Bool) (w : WindowState) (t : String)
    (ti : TabInfo) (hl : w.is_loading_tab = false)
    (ht : w.loaded_tabs t = some ti) (hi : ti.inst = none) :
    (∀ b1 b2 b3, needs_admin_for_plugin b1 b2 b3 = true ↔
      (b1 = true ∧ b2 = true ∧ b3 = false))
    ∧ (needs_admin_for_plugin iw ti.plugin_class.requires_admin ia = true →
        (on_tab_changed iw ia w t).loaded_tabs t
          = some { plugin_class := ti.plugin_class,
                   inst := some .adminBlocked }
        ∧ (on_tab_changed iw ia w t).displayed t = some .adminBlocked
        ∧ (on_tab_changed iw ia w t).factory_calls t = w.factory_calls t)
    ∧ (needs_admin_for_plugin iw ti.plugin_class.requires_admin ia = false →
        (on_tab_changed iw ia w t).factory_calls t
          = w.factory_calls t + 1) := by
  refine ⟨by decide, ?_, ?_⟩
  · intro had
    rw [on_tab_changed_fresh_admin iw ia w t ti hl ht hi had]
    exact ⟨setT_self _ _ _, setD_self _ _ _, rfl⟩
  · intro had
    cases hcw : ti.plugin_class.create_widget with
    | ok v =>
      rw [on_tab_changed_fresh_ok iw ia w t ti hl ht hi had hcw]
      exact bump_self _ _
    | error m =>
      rw [on_tab_changed_fresh_error iw ia w t ti hl ht hi had hcw]
      exact bump_self _ _

/-- Witness for C4: on Windows without elevation, the admin-requiring
tab "C" admin-blocks with no factory call; the same tab with
`requires_admin = false` invokes the factory. -/
theorem c4_admin_gating_witness :
    (on_tab_changed true false
        (add_tab emptyWindow "C" adminPlugin) "C").loaded_tabs "C"
      = some { plugin_class := adminPlugin, inst := some .adminBlocked }
    ∧ (on_tab_changed true false
        (add_tab emptyWindow "C" okPlugin) "C").factory_calls "C"
      = (add_tab emptyWindow "C" okPlugin).factory_calls "C" + 1 := by
  constructor
  · exact ((c4_admin_gating true false (add_tab emptyWindow "C" adminPlugin)
      "C" ⟨adminPlugin, none⟩ (by decide) (by decide) rfl).2.1
      (by decide)).1
  · exact (c4_admin_gating true false (add_tab emptyWindow "C" okPlugin)
      "C" ⟨okPlugin, none⟩ (by decide) (by decide) rfl).2.2 (by decide)

/-- **C8** — Activation failure isolation: a factory that raises `m` is
caught, the tab slot shows the `Error` placeholder carrying `m`, the
re-entrancy guard is released, and a subsequent selection of a different
healthy tab still materializes normally. -/
theorem c8_activation_failure_isolation (iw ia : Bool) (w : WindowState)
    (t u : String) (ti tu : TabInfo) (m : String) (v : Nat)
    (hl : w.is_loading_tab = false)
    (ht : w.loaded_tabs t = some ti) (hti : ti.inst = none)
    (hadm : needs_admin_for_plugin iw ti.plugin_class.requires_admin ia
      = false)
    (hcw : ti.plugin_class.create_widget = .error m)
    (hne : t ≠ u)
    (hu : w.loaded_tabs u = some tu) (htu : tu.inst = none)
    (hadmu : needs_admin_for_plugin iw tu.plugin_class.requires_admin ia
      = false)
    (hcwu : tu.plugin_class.create_widget = .ok v) :
    (on_tab_changed iw ia w t).displayed t = some (.errorState m)
    ∧ (on_tab_changed iw ia w t).is_loading_tab = false
    ∧ (on_tab_changed iw ia (on_tab_changed iw ia w t) u).displayed u
        = some (.ready v)
    ∧ (on_tab_changed iw ia (on_tab_changed iw ia w t) u).loaded_tabs u
        = some { plugin_class := tu.plugin_class,
                 inst := some (.ready v) } := by
  have hstep := on_tab_changed_fresh_error iw ia w t ti hl ht hti hadm hcw
  have hne2 : u ≠ t := fun h => hne h.symm
  have hu1 : (on_tab_changed iw ia w t).loaded_tabs u = some tu := by
    rw [hstep]
    exact hu
  have hl1 : (on_tab_changed iw ia w t).is_loading_tab = false := by
    rw [hstep]
  have hstep2 := on_tab_changed_fresh_ok iw ia (on_tab_changed iw ia w t) u
    tu hl1 hu1 htu hadmu hcwu
  refine ⟨?_, hl1, ?_, ?_⟩
  · rw [hstep]
    exact setD_self _ _ _
  · rw [hstep2]
    exact setD_self _ _ _
  · rw [hstep2]
    exact setT_self _ _ _

/-- Witness for C8: tab "A" raises "boom", tab "B" still loads. -/
theorem c8_activation_failure_isolation_witness :
    (on_tab_changed false false demoWindow "A").displayed "A"
      = some (.errorState "boom")
    ∧ (on_tab_changed false false (on_tab_changed false false demoWindow "A")
        "B").displayed "B" = some (.ready 7) := by
  have h := c8_activation_failure_isolation false false demoWindow "A" "B"
    ⟨boomPlugin, none⟩ ⟨okPlugin, none⟩ "boom" 7 (by decide) (by decide) rfl
    (by decide) (by decide) (by decide) (by decide) rfl (by decide)
    (by decide)
  exact ⟨h.1, h.2.2.1⟩

/-- Counterexample to C7 as stated: when the plugins directory is already
on the lookup path before the call, the `finally` block still removes it,
so the path after `discover_local_plugins` differs from the path before
the call. -/
theorem c7_counterexample :
    (discover_local_plugins true true "plugins_abs" [] ["plugins_abs"]).fst
      ≠ ["plugins_abs"] := by
  decide

/-- **C7 (amended)** — Search-path mutation is scoped and reverted
provided the plugins directory is not already on the lookup path before
the call: then the path after the call equals the path before it, for
every file list (including files whose load raises). When the directory
is already present beforehand, the `finally` block removes its first
occurrence instead of restoring the original path (see the
counterexample); the non-directory and missing-directory early returns
leave the path untouched unconditionally. -/
theorem c7_search_path_scoped (dirExists isDir : Bool) (dirStr : String)
    (files : List LocalFile) (sysPath : List String) :
    (sysPath.contains dirStr = false →
      (discover_local_plugins dirExists isDir dirStr files sysPath).fst
        = sysPath)
    ∧ (sysPath.contains dirStr = true → dirExists = true → isDir = true →
      (discover_local_plugins dirExists isDir dirStr files sysPath).fst
        = sysPath.erase dirStr) := by
  constructor
  · intro h
    cases dirExists with
    | false => rfl
    | true =>
      cases isDir with
      | false => rfl
      | true =>
        have h2 : dirStr ∉ sysPath := by simpa using h
        unfold discover_local_plugins
        dsimp only
        simp [h2]
  · intro h hde hid
    subst hde hid
    have h2 : dirStr ∈ sysPath := by simpa using h
    unfold discover_local_plugins
    dsimp only
    simp [h2]

/-- Witness for C7 (amended): a scan over a directory holding a file
whose load raises still restores the lookup path exactly. -/
theorem c7_search_path_scoped_witness :
    (discover_local_plugins true true "plugins_abs"
      [{ name := "broken.py", loadResult := .error "SyntaxError" }]
      ["site-packages"]).fst = ["site-packages"] := by
  exact (c7_search_path_scoped true true "plugins_abs"
    [{ name := "broken.py", loadResult := .error "SyntaxError" }]
    ["site-packages"]).1 (by decide)

theorem register_discovered_append (plat : String) (r : PluginRegistry)
    (l1 l2 : List (String × PluginDescriptor × String)) :
    register_discovered_plugins plat r (l1 ++ l2)
      = ((register_discovered_plugins plat
          (register_discovered_plugins plat r l1).fst l2).fst,
        (register_discovered_plugins plat r l1).snd
          ++ (register_discovered_plugins plat
            (register_discovered_plugins plat r l1).fst l2).snd) := by
  induction l1 generalizing r with
  | nil => simp [register_discovered_plugins]
  | cons c rest ih =>
    obtain ⟨nm, d, src⟩ := c
    simp only [List.cons_append, register_discovered_plugins]
    cases hreg : register_plugin plat r d d.is_core_plugin with
    | ok r2 => simp [ih r2]
    | error e => simp [ih r]

/-- **C9** — Per-candidate failure containment: one failing local file is
skipped while the remaining files still contribute (and the lookup-path
effect is unchanged); one failing entry point is skipped while the rest
still resolve; one failing registration leaves the registry as if the
candidate were absent, records `failed: <msg>` for it, and every
remaining candidate is still registered. All three loops are total
functions of their candidate lists: no per-candidate failure escapes
them. -/
theorem c9_per_candidate_containment (plat : String) (r : PluginRegistry)
    (dirExists isDir : Bool) (dirStr : String) (sysPath : List String)
    (fs1 fs2 : List LocalFile) (bad : LocalFile)
    (eps1 eps2 : List EntryPointRec) (badEp : EntryPointRec)
    (l1 l2 : List (String × PluginDescriptor × String))
    (nm src e : String) (d : PluginDescriptor) :
    (bad.loadResult = .error e →
      discover_local_plugins dirExists isDir dirStr (fs1 ++ bad :: fs2)
          sysPath
        = discover_local_plugins dirExists isDir dirStr (fs1 ++ fs2) sysPath)
    ∧ (badEp.loadResult = .error e →
      discover_entry_point_plugins (.ok (eps1 ++ badEp :: eps2))
        = discover_entry_point_plugins (.ok (eps1 ++ eps2)))
    ∧ (register_plugin plat (register_discovered_plugins plat r l1).fst d
          d.is_core_plugin = .error e →
        (register_discovered_plugins plat r (l1 ++ (nm, d, src) :: l2)).fst
          = (register_discovered_plugins plat r (l1 ++ l2)).fst
        ∧ (register_discovered_plugins plat r (l1 ++ (nm, d, src) :: l2)).snd
          = (register_discovered_plugins plat r l1).snd
            ++ (nm, "failed: " ++ e)
            :: (register_discovered_plugins plat
                (register_discovered_plugins plat r l1).fst l2).snd) := by
  refine ⟨?_, ?_, ?_⟩
  · intro hbad
    have hsf : scanFile bad = [] := by simp [scanFile, hbad]
    cases dirExists with
    | false => rfl
    | true =>
      cases isDir with
      | false => rfl
      | true =>
        have hfound : ((fs1 ++ bad :: fs2).filter shouldScan).flatMap scanFile
            = ((fs1 ++ fs2).filter shouldScan).flatMap scanFile := by
          by_cases hscan : shouldScan bad = true
          · simp [List.filter_append, List.filter_cons, hscan, hsf]
          · simp [List.filter_append, List.filter_cons,
              Bool.not_eq_true _ ▸ hscan]
        show (_, ((fs1 ++ bad :: fs2).filter shouldScan).flatMap scanFile)
          = (_, ((fs1 ++ fs2).filter shouldScan).flatMap scanFile)
        rw [hfound]
  · intro hbad
    unfold discover_entry_point_plugins
    simp [hbad]
  · intro hreg
    rw [register_discovered_append plat r l1 ((nm, d, src) :: l2),
      register_discovered_append plat r l1 l2]
    simp only [register_discovered_plugins, hreg]
    exact ⟨trivial, trivial⟩

/-- Witness for C9 at concrete inputs: a broken file, a broken entry
point, and a failing registration (invalid descriptor) are each skipped
while their healthy peers are processed. -/
theorem c9_per_candidate_containment_witness :
    discover_local_plugins true true "plugins_abs"
        [{ name := "good.py", loadResult := .ok [dExt] },
         { name := "broken.py", loadResult := .error "SyntaxError" },
         { name := "also_good.py", loadResult := .ok [dQuiet] }] []
      = discover_local_plugins true true "plugins_abs"
        [{ name := "good.py", loadResult := .ok [dExt] },
         { name := "also_good.py", loadResult := .ok [dQuiet] }] []
    ∧ (register_discovered_plugins "Linux" initRegistry
        [("Unnamed Tab", dBad, "entry_point"), ("Tools", dExt, "entry_point")]
        ).snd
      = [("Unnamed Tab", "failed: "
            ++ registerErrorMsg "Unnamed Tab" (validate_plugin dBad)),
         ("Tools", "success (entry_point)")] := by
  constructor
  · exact (c9_per_candidate_containment "Linux" initRegistry true true
      "plugins_abs" []
      [{ name := "good.py", loadResult := .ok [dExt] }]
      [{ name := "also_good.py", loadResult := .ok [dQuiet] }]
      { name := "broken.py", loadResult := .error "SyntaxError" }
      [] [] { name := "ep", loadResult := .error "x" } [] []
      "n" "s" "SyntaxError" dBad).1 rfl
  · have h := (c9_per_candidate_containment "Linux" initRegistry true true
      "plugins_abs" [] [] []
      { name := "f.py", loadResult := .ok [] }
      [] [] { name := "ep", loadResult := .error "x" }
      [] [("Tools", dExt, "entry_point")]
      "Unnamed Tab" "entry_point"
      (registerErrorMsg "Unnamed Tab" (validate_plugin dBad)) dBad).2.2 rfl
    simp only [List.nil_append] at h
    rw [h.2]
    decide

end PySideUI
